import Mathlib

/-!
Shallow embedding of the LunchLog visit-statistics and restaurant-recommendation
core (apps/restaurants: services.py, services/recommendations.py,
services/visit_tracking.py, tasks.py, models.py).

Conventions of the embedding:
- Python numbers (ratings, coordinates) are modelled by `Rat`; price levels by `Int`.
- A Python dict field that can be absent is `Option _`; a field that is present
  but can hold Python None is also `Option _`; a field that can be absent or
  None is `Option (Option _)` (outer `none` = key absent, `some none` = null).
- `dict.get(k, d)` with default is `pyGetD`; truthiness of strings, lists and
  numbers is modelled by the `truthy...` helpers.
- A Python comparison between None and a number raises TypeError; operations
  that can raise run in `Except PyErr`.  A Python try/except that converts any
  exception into an empty result is a `match` on that `Except`.
-/

/-- Errors a modelled Python expression can raise. -/
inductive PyErr where
  | typeError
  | apiError (msg : String)
deriving DecidableEq

instance {ε α : Type} [DecidableEq ε] [DecidableEq α] : DecidableEq (Except ε α) :=
  fun x y =>
    match x, y with
    | .error a, .error b =>
      if h : a = b then .isTrue (congrArg Except.error h)
      else .isFalse (fun he => h (Except.error.inj he))
    | .ok a, .ok b =>
      if h : a = b then .isTrue (congrArg Except.ok h)
      else .isFalse (fun he => h (Except.ok.inj he))
    | .error _, .ok _ => .isFalse (fun he => Except.noConfusion he)
    | .ok _, .error _ => .isFalse (fun he => Except.noConfusion he)

/-- Python `dict.get(key, default)` for a numeric field: absent key gives the
default, a present key gives the stored value (possibly Python None). -/
def pyGetD {α : Type} (field : Option (Option α)) (dflt : α) : Option α :=
  match field with
  | none => some dflt
  | some v => v

/-- Python `dict.get(key)` without default: absent key gives None. -/
def pyFlatten {α : Type} (field : Option (Option α)) : Option α :=
  match field with
  | none => none
  | some v => v

/-- Python `a < b` on values that may be None: comparing None with a number
raises TypeError. -/
def pyLt {α : Type} [LT α] [DecidableRel (fun a b : α => a < b)]
    (a b : Option α) : Except PyErr Bool :=
  match a, b with
  | some x, some y => .ok (decide (x < y))
  | _, _ => .error .typeError

/-- Truthiness of an optional string (Python: None and the empty string are falsy). -/
def truthyS (s : Option String) : Bool :=
  match s with
  | none => false
  | some v => v ≠ ""

/-- Truthiness of an optional number (Python: None and 0 are falsy). -/
def truthyQ (q : Option Rat) : Bool :=
  match q with
  | none => false
  | some v => v ≠ 0

/-- Truthiness of an optional list (Python: None and the empty list are falsy). -/
def truthyL {α : Type} (l : Option (List α)) : Bool :=
  match l with
  | none => false
  | some v => ¬ v.isEmpty

/-- Python `needle in hay` on character sequences (substring search). -/
def pySeqIn (needle : List Char) : List Char → Bool
  | [] => needle.isEmpty
  | c :: t => needle.isPrefixOf (c :: t) || pySeqIn needle t

/-- Python `needle in hay` on strings. -/
def pyStrIn (needle hay : String) : Bool :=
  pySeqIn needle.toList hay.toList

/-- Python `s.startswith(pre)`. -/
def pyStartsWith (s pre : String) : Bool :=
  pre.data.isPrefixOf s.data

/-- Python `s.replace("_", " ")`. -/
def pyReplaceUnderscore (s : String) : String :=
  ⟨s.data.map (fun c => if c = '_' then ' ' else c)⟩

/-- Python `s.title()` character by character: the first letter of each
alphabetic run is uppercased, the following letters are lowercased. -/
def pyTitleAux (atStart : Bool) : List Char → List Char
  | [] => []
  | c :: t =>
    if c.isAlpha then
      (if atStart then c.toUpper else c.toLower) :: pyTitleAux false t
    else
      c :: pyTitleAux true t

/-- Python `s.title()`. -/
def pyTitle (s : String) : String :=
  ⟨pyTitleAux true s.data⟩

/-! ## Places Lookup Gateway: cuisine-tag derivation
(services.py, GooglePlacesService._extract_cuisines_from_types, lines 153-251) -/

/-- The fixed food-related category vocabulary of
`_extract_cuisines_from_types` (services.py lines 164-229). -/
def food_related_types : List String :=
  ["acai_shop", "afghani_restaurant", "african_restaurant", "american_restaurant",
   "asian_restaurant", "bagel_shop", "bakery", "bar", "bar_and_grill",
   "barbecue_restaurant", "brazilian_restaurant", "breakfast_restaurant",
   "brunch_restaurant", "buffet_restaurant", "cafe", "cafeteria", "candy_store",
   "cat_cafe", "chinese_restaurant", "chocolate_factory", "chocolate_shop",
   "coffee_shop", "confectionery", "deli", "dessert_restaurant", "dessert_shop",
   "diner", "dog_cafe", "donut_shop", "fast_food_restaurant",
   "fine_dining_restaurant", "food_court", "french_restaurant", "greek_restaurant",
   "hamburger_restaurant", "ice_cream_shop", "indian_restaurant",
   "indonesian_restaurant", "italian_restaurant", "japanese_restaurant",
   "juice_shop", "korean_restaurant", "lebanese_restaurant", "meal_delivery",
   "meal_takeaway", "mediterranean_restaurant", "mexican_restaurant",
   "middle_eastern_restaurant", "pizza_restaurant", "pub", "ramen_restaurant",
   "restaurant", "sandwich_shop", "seafood_restaurant", "spanish_restaurant",
   "steak_house", "sushi_restaurant", "tea_house", "thai_restaurant",
   "turkish_restaurant", "vegan_restaurant", "vegetarian_restaurant",
   "vietnamese_restaurant", "wine_bar"]

/-- Generic types used only by the fallback loop (services.py line 232). -/
def generic_types : List String :=
  ["restaurant", "meal_delivery", "meal_takeaway", "food"]

/-- Readable cuisine label: `type_name.replace("_", " ").title()` (line 240). -/
def cuisineLabel (t : String) : String :=
  pyTitle (pyReplaceUnderscore t)

/-- GooglePlacesService._extract_cuisines_from_types (services.py lines 153-251):
append the label of every type found in `food_related_types` (skipping labels
already collected); if nothing matched, fall back to a single "Restaurant"
label when some type is in `generic_types`. -/
def extract_cuisines_from_types (types : List String) : List String :=
  let cuisines := types.foldl
    (fun acc t =>
      if food_related_types.contains t && !(acc.contains (cuisineLabel t)) then
        acc ++ [cuisineLabel t]
      else acc) []
  if cuisines.isEmpty then
    if types.any (fun t => generic_types.contains t) then ["Restaurant"] else []
  else cuisines

/-! ## Places Lookup Gateway: data shapes and operations
(services.py, GooglePlacesService) -/

/-- A raw place entry of a `places_nearby` response (services.py lines 315-358).
`rating` and `price_level` can be absent or null; the other fields mirror the
keys the code reads. -/
structure RawPlace where
  place_id : Option String
  name : Option String
  rating : Option (Option Rat)
  price_level : Option (Option Int)
  vicinity : Option String
  types : List String
  business_status : Option String
deriving DecidableEq

/-- A restaurant dictionary as built by `search_nearby_restaurants`
(services.py lines 346-359) and annotated by the recommendation service
(recommendations.py lines 104-109): the annotation keys are absent (`none`)
until the recommendation loop sets them. -/
structure Candidate where
  place_id : Option String
  name : Option String
  rating : Option (Option Rat)
  price_level : Option (Option Int)
  vicinity : Option String
  cuisines : List String
  business_status : Option String
  reference_location : Option (String × Nat)
  recommendation_type : Option String
  matched_cuisines : Option (List String)
deriving DecidableEq

/-- The `restaurant_data` dict built for a kept place (services.py lines 346-359):
every key is present, so `rating`/`price_level` are `some (place.get(k))`. -/
def toCandidate (p : RawPlace) : Candidate where
  place_id := p.place_id
  name := p.name
  rating := some (pyFlatten p.rating)
  price_level := some (pyFlatten p.price_level)
  vicinity := p.vicinity
  cuisines := extract_cuisines_from_types p.types
  business_status := some (p.business_status.getD "OPERATIONAL")
  reference_location := none
  recommendation_type := none
  matched_cuisines := none

/-- Sort key of `restaurants.sort(key=lambda x: x.get("rating", 0), reverse=True)`
(services.py line 364 and recommendations.py lines 121, 174, 236). -/
def ratingSortKey (c : Candidate) : Option Rat :=
  pyGetD c.rating 0

/-- One insertion step of a stable descending sort by `ratingSortKey`: the new
element is placed before the first element whose key is strictly smaller, so
elements with equal keys keep their original order, and any comparison against
a null key raises TypeError, as CPython `list.sort` does. -/
def sortInsertDesc (x : Candidate) : List Candidate → Except PyErr (List Candidate)
  | [] => .ok [x]
  | y :: ys => do
    let yLtX ← pyLt (ratingSortKey y) (ratingSortKey x)
    if yLtX then
      .ok (x :: y :: ys)
    else do
      let rest ← sortInsertDesc x ys
      .ok (y :: rest)

/-- `list.sort(key=lambda x: x.get("rating", 0), reverse=True)` as a stable
descending insertion sort over the partial comparison `pyLt`: it raises
TypeError exactly when CPython does, namely when the list has at least two
elements and some element's rating key is present but null. -/
def pySortByRatingDesc (l : List Candidate) : Except PyErr (List Candidate) :=
  l.foldlM (fun acc x => sortInsertDesc x acc) []

/-- The rating filter of the `places_nearby` loop (services.py lines 316-318):
`true` means the Python `continue` was taken; evaluating the comparison can
raise. -/
def ratingCheck (min_rating : Option Rat) (p : RawPlace) : Except PyErr Bool :=
  if truthyQ min_rating then pyLt (pyGetD p.rating 0) min_rating else .ok false

/-- The price-level filter (services.py lines 320-325): the cap is compared
with `is not None`, and the comparison `place.get("price_level", 5) > cap` is
`cap < value` on the reflected operands. -/
def priceCheck (max_price_level : Option Int) (p : RawPlace) : Except PyErr Bool :=
  match max_price_level with
  | some cap => pyLt (some cap) (pyGetD p.price_level 5)
  | none => .ok false

/-- The cuisine filter (services.py lines 327-343): `true` means the place is
kept; only applies when the desired list is truthy. -/
def cuisineCheck (cuisine_types : Option (List String)) (p : RawPlace) : Bool :=
  if truthyL cuisine_types then
    (extract_cuisines_from_types p.types).any (fun pc =>
      (cuisine_types.getD []).any (fun dc => pyStrIn dc.toLower pc.toLower))
  else
    true

/-- Decision for one place of the `places_nearby` loop of
`search_nearby_restaurants` (services.py lines 315-343): `false` means some
Python `continue` branch was taken. -/
def placeKept (min_rating : Option Rat) (max_price_level : Option Int)
    (cuisine_types : Option (List String)) (p : RawPlace) : Except PyErr Bool := do
  let ratingFail ← ratingCheck min_rating p
  if ratingFail then
    .ok false
  else do
    let priceFail ← priceCheck max_price_level p
    if priceFail then
      .ok false
    else
      .ok (cuisineCheck cuisine_types p)

/-- The filtering loop of `search_nearby_restaurants` (services.py lines 313-361). -/
def searchLoop (min_rating : Option Rat) (max_price_level : Option Int)
    (cuisine_types : Option (List String)) : List RawPlace → Except PyErr (List Candidate)
  | [] => .ok []
  | p :: ps => do
    let keep ← placeKept min_rating max_price_level cuisine_types p
    let rest ← searchLoop min_rating max_price_level cuisine_types ps
    if keep then .ok (toCandidate p :: rest) else .ok rest

/-- GooglePlacesService.search_nearby_restaurants (services.py lines 279-370).
`client` is `none` when no API key is configured (disabled state); otherwise it
carries the `places_nearby` outcome, an error for a transport/API failure. The
surrounding try/except converts any raised error into the empty list. -/
def search_nearby_restaurants (client : Option (Except PyErr (List RawPlace)))
    (min_rating : Option Rat) (max_price_level : Option Int)
    (cuisine_types : Option (List String)) (top_k_results : Nat) : List Candidate :=
  match client with
  | none => []
  | some response =>
    let body : Except PyErr (List Candidate) := do
      let places ← response
      let restaurants ← searchLoop min_rating max_price_level cuisine_types places
      let sorted ← pySortByRatingDesc restaurants
      .ok (sorted.take top_k_results)
    match body with
    | .error _ => []
    | .ok out => out

/-- GooglePlacesService.get_recommendations_near_location (services.py lines
372-430): dispatch on the recommendation-type string. -/
def get_recommendations_near_location (client : Option (Except PyErr (List RawPlace)))
    (recommendation_type : String) (user_cuisines : Option (List String))
    (top_k_results : Nat) : List Candidate :=
  if recommendation_type = "good" then
    search_nearby_restaurants client (some 4) none none top_k_results
  else if recommendation_type = "cheap" then
    search_nearby_restaurants client none (some 1) none top_k_results
  else if recommendation_type = "cuisine_match" && truthyL user_cuisines then
    search_nearby_restaurants client none none user_cuisines top_k_results
  else
    search_nearby_restaurants client none none none top_k_results

/-- The normalized details dictionary returned by
GooglePlacesService.fetch_restaurant_details (services.py lines 91-108). -/
structure PlaceData where
  place_id : Option String
  name : Option String
  address : Option String
  latitude : Option Rat
  longitude : Option Rat
  rating : Option Rat
  cuisines : List String
  business_status : String
deriving DecidableEq

/-- The `result` object of a Google Places details response as read by
`fetch_restaurant_details` (services.py lines 78-107). -/
structure PlaceDetailsRaw where
  place_id : Option String
  name : Option String
  formatted_address : Option String
  lat : Option Rat
  lng : Option Rat
  rating : Option Rat
  types : List String
  type_singular : Option String
  business_status : Option String
deriving DecidableEq

/-- A Google Places details response envelope (`status` plus `result`). -/
structure PlaceResponse where
  status : String
  result : PlaceDetailsRaw
deriving DecidableEq

/-- GooglePlacesService.fetch_restaurant_details (services.py lines 41-112):
`none` client means disabled (no credential); an error response is absorbed by
the try/except; a non-OK status yields None; otherwise the normalized details
are built (zero/absent coordinates and rating become None; cuisines are derived
from the type tags, falling back to the singular `type` key). -/
def fetch_restaurant_details (client : Option (Except PyErr PlaceResponse)) :
    Option PlaceData :=
  match client with
  | none => none
  | some (.error _) => none
  | some (.ok resp) =>
    if resp.status ≠ "OK" then none
    else
      let pd := resp.result
      let place_types :=
        if pd.types.isEmpty && truthyS pd.type_singular then
          [pd.type_singular.getD ""]
        else pd.types
      some {
        place_id := pd.place_id
        name := pd.name
        address := pd.formatted_address
        latitude := if truthyQ pd.lat then pd.lat else none
        longitude := if truthyQ pd.lng then pd.lng else none
        rating := if truthyQ pd.rating then pd.rating else none
        cuisines := extract_cuisines_from_types place_types
        business_status := pd.business_status.getD "UNKNOWN" }

/-- A find-place candidate as rebuilt by `find_place_from_text`
(services.py lines 142-148). -/
structure FoundCandidate where
  place_id : Option String
  name : Option String
  formatted_address : Option String
deriving DecidableEq

/-- GooglePlacesService.find_place_from_text (services.py lines 114-151):
`none` client means disabled; an error response is absorbed by the try/except;
an empty candidate list yields None, otherwise the first candidate is returned. -/
def find_place_from_text (client : Option (Except PyErr (List FoundCandidate))) :
    Option FoundCandidate :=
  match client with
  | none => none
  | some (.error _) => none
  | some (.ok candidates) =>
    match candidates with
    | [] => none
    | c :: _ => some c

/-! ## Recommendation Engine: deduplication and final ordering
(services/recommendations.py, RestaurantRecommendationService) -/

/-- The loop of `_deduplicate_recommendations` (recommendations.py lines
250-259) with the `seen_place_ids` accumulator made explicit: a candidate is
kept only if its place_id is truthy (present and non-empty) and not seen yet. -/
def dedupLoop (seen : List String) : List Candidate → List Candidate
  | [] => []
  | c :: cs =>
    match c.place_id with
    | none => dedupLoop seen cs
    | some pid =>
      if pid ≠ "" ∧ pid ∉ seen then
        c :: dedupLoop (pid :: seen) cs
      else
        dedupLoop seen cs

/-- RestaurantRecommendationService._deduplicate_recommendations
(recommendations.py lines 240-259). -/
def deduplicate_recommendations (recommendations : List Candidate) : List Candidate :=
  dedupLoop [] recommendations

/-- The shared tail of the three recommendation pipelines (recommendations.py
lines 119-123, 172-176, 234-238): deduplicate the merged per-location lists,
sort by rating descending, truncate to `limit`. The sort is outside any
try/except, so a TypeError raised by it propagates to the caller. -/
def dedup_sort_limit (limit : Nat) (all_recommendations : List Candidate) :
    Except PyErr (List Candidate) := do
  let unique ← pure (deduplicate_recommendations all_recommendations)
  let sorted ← pySortByRatingDesc unique
  .ok (sorted.take limit)

/-! ## Visit Ledger (services/visit_tracking.py and models.py) -/

/-- A UserRestaurantVisit row (models.py lines 87-117): `last_visit` has
`auto_now=True`, so it is set to the current date when the row is saved with
that field included. -/
structure VisitRec where
  visit_count : Nat
  last_visit : Nat
deriving DecidableEq

/-- A Restaurant row as seen by the core (models.py lines 24-84): `id` is the
opaque internal identifier, `cuisines` the associated cuisine-tag names. -/
structure Restaurant where
  id : Nat
  place_id : String
  name : String
  address : String
  latitude : Option Rat
  longitude : Option Rat
  rating : Option Rat
  cuisines : List String
deriving DecidableEq

/-- The ledger tables: UserRestaurantVisit keyed by (user, restaurant id) and
UserCuisineStat keyed by (user, cuisine name). -/
structure Ledger where
  visits : Nat → Nat → Option VisitRec
  cuisineStats : Nat → String → Option Nat

/-- The empty ledger. -/
def emptyLedger : Ledger where
  visits := fun _ _ => none
  cuisineStats := fun _ _ => none

/-- Point update of the visits table. -/
def setVisit (f : Nat → Nat → Option VisitRec) (u rid : Nat) (v : Option VisitRec) :
    Nat → Nat → Option VisitRec :=
  fun x y => if x = u ∧ y = rid then v else f x y

/-- Point update of the cuisine-stat table. -/
def setStat (f : Nat → String → Option Nat) (u : Nat) (c : String) (v : Option Nat) :
    Nat → String → Option Nat :=
  fun x y => if x = u ∧ y = c then v else f x y

/-- One `get_or_create`-then-increment step for a cuisine
(visit_tracking.py lines 43-53): create with count 1 when absent, else
increment by 1 via the atomic F-expression. -/
def bumpCuisine (u : Nat) (st : Ledger) (c : String) : Ledger :=
  match st.cuisineStats u c with
  | none => { st with cuisineStats := setStat st.cuisineStats u c (some 1) }
  | some n => { st with cuisineStats := setStat st.cuisineStats u c (some (n + 1)) }

/-- update_visit_stats (visit_tracking.py lines 13-58). `visit_date` is the
date argument the caller passes; `today` is the current date used by the
`auto_now` field. On creation the row gets count 1 and `last_visit = today`
(auto_now); on increment the row is saved with update_fields restricted to
visit_count, so `last_visit` is not written at all. Then
every cuisine of the restaurant is created-or-incremented. -/
def update_visit_stats (u : Nat) (r : Restaurant) (visit_date today : Nat)
    (st : Ledger) : Ledger :=
  let _ := visit_date
  let st1 :=
    match st.visits u r.id with
    | none =>
      { st with visits := setVisit st.visits u r.id (some ⟨1, today⟩) }
    | some v =>
      { st with visits := setVisit st.visits u r.id (some ⟨v.visit_count + 1, v.last_visit⟩) }
  r.cuisines.foldl (fun s c => bumpCuisine u s c) st1

/-- Apply a sequence of receipt creations for the same (user, restaurant):
each entry of `dates` is a (visit_date, current-date) pair. -/
def applyVisitSequence (u : Nat) (r : Restaurant) (dates : List (Nat × Nat))
    (st : Ledger) : Ledger :=
  dates.foldl (fun s dt => update_visit_stats u r dt.1 dt.2 s) st

/-- Visit count stored for (user, restaurant id), 0 when the row is absent. -/
def visitCount (st : Ledger) (u rid : Nat) : Nat :=
  match st.visits u rid with
  | none => 0
  | some v => v.visit_count

/-- Cuisine-stat count stored for (user, cuisine name), 0 when the row is absent. -/
def cuisineCount (st : Ledger) (u : Nat) (c : String) : Nat :=
  match st.cuisineStats u c with
  | none => 0
  | some n => n

/-! ## Restaurant Enrichment Job (tasks.py, update_restaurant_info) -/

/-- Python set equality of two name lists: set(a) == set(b). -/
def setEqNames (a b : List String) : Bool :=
  a.all (fun x => b.contains x) && b.all (fun x => a.contains x)

/-- The name delta of the update block (tasks.py lines 74-76): returns the new
stored value and whether "name" is recorded as changed. -/
def newName (cur : String) (d : PlaceData) : String × Bool :=
  match d.name with
  | some s => if s ≠ "" ∧ s ≠ cur then (s, true) else (cur, false)
  | none => (cur, false)

/-- The address delta (tasks.py lines 78-80). -/
def newAddress (cur : String) (d : PlaceData) : String × Bool :=
  match d.address with
  | some s => if s ≠ "" ∧ s ≠ cur then (s, true) else (cur, false)
  | none => (cur, false)

/-- The cuisine-set delta (tasks.py lines 82-100): only applied when the
fetched list is non-empty, compared by set equality of tag names, and the
replacement stores the fetched set. -/
def newCuisines (cur : List String) (d : PlaceData) : List String × Bool :=
  if d.cuisines ≠ [] ∧ setEqNames cur d.cuisines = false then
    (d.cuisines.dedup, true)
  else
    (cur, false)

/-- The rating delta (tasks.py lines 102-104): a falsy fetched rating (None or
zero) is skipped; otherwise overwrite when different. -/
def newRating (cur : Option Rat) (d : PlaceData) : Option Rat × Bool :=
  match d.rating with
  | some v => if v ≠ 0 ∧ some v ≠ cur then (some v, true) else (cur, false)
  | none => (cur, false)

/-- The latitude delta (tasks.py lines 106-108). -/
def newLatitude (cur : Option Rat) (d : PlaceData) : Option Rat × Bool :=
  match d.latitude with
  | some v => if v ≠ 0 ∧ some v ≠ cur then (some v, true) else (cur, false)
  | none => (cur, false)

/-- The longitude delta (tasks.py lines 110-112). -/
def newLongitude (cur : Option Rat) (d : PlaceData) : Option Rat × Bool :=
  match d.longitude with
  | some v => if v ≠ 0 ∧ some v ≠ cur then (some v, true) else (cur, false)
  | none => (cur, false)

/-- The field-delta block of update_restaurant_info (tasks.py lines 70-119):
each delta reads and writes only its own field, so the sequential Python
mutations are the simultaneous record update below; `updated_fields` collects
the changed field names in source order. -/
def computeUpdate (r : Restaurant) (d : PlaceData) : Restaurant × List String :=
  let nm := newName r.name d
  let ad := newAddress r.address d
  let cu := newCuisines r.cuisines d
  let ra := newRating r.rating d
  let la := newLatitude r.latitude d
  let lo := newLongitude r.longitude d
  ({ r with
      name := nm.1, address := ad.1, cuisines := cu.1,
      rating := ra.1, latitude := la.1, longitude := lo.1 },
   (if nm.2 then ["name"] else []) ++ (if ad.2 then ["address"] else []) ++
   (if cu.2 then ["cuisines"] else []) ++ (if ra.2 then ["rating"] else []) ++
   (if la.2 then ["latitude"] else []) ++ (if lo.2 then ["longitude"] else []))

/-- Outcome of one invocation of the Celery task: the returned result dict, or
a re-raise via self.retry with the given countdown in seconds. -/
inductive TaskResult where
  | success (updated_fields : List String)
  | error (message : String)
  | retry (countdown : Nat)
deriving DecidableEq

/-- update_restaurant_info (tasks.py lines 13-151). Inputs model the
collaborators: `restaurantRow` is the lookup by id (None raises DoesNotExist,
reported as "Restaurant not found"); `findPlace` is the find_place_from_text
outcome used only for stub place_ids; `fetched` is the fetch_restaurant_details
outcome for the (possibly resolved) place_id; `persistRaises` models an
unexpected exception inside the update/persist block, which the generic except
handler turns into a retry with countdown 2 to the `retries` times 60 seconds
while fewer than max_retries=3 retries have been used. The second component is
the Restaurant row as persisted after the call (a resolved stub place_id is
saved before the fetch, so it survives a later failure). -/
def update_restaurant_info (restaurantRow : Option Restaurant)
    (findPlace : Option FoundCandidate) (fetched : Option PlaceData)
    (persistRaises : Bool) (retries : Nat) : TaskResult × Option Restaurant :=
  match restaurantRow with
  | none => (.error "Restaurant not found", none)
  | some r =>
    let resolved : Except (TaskResult × Option Restaurant) Restaurant :=
      if pyStartsWith r.place_id "stub_" then
        match findPlace with
        | some cand =>
          if truthyS cand.place_id then
            .ok { r with place_id := cand.place_id.getD r.place_id }
          else
            .error (.error "Could not find real place_id for stub restaurant", some r)
        | none =>
          .error (.error "Could not find real place_id for stub restaurant", some r)
      else
        .ok r
    match resolved with
    | .error out => out
    | .ok r1 =>
      match fetched with
      | none => (.error "Failed to fetch data from Google Places API", some r1)
      | some d =>
        if persistRaises then
          if retries < 3 then
            (.retry (2 ^ retries * 60), some r1)
          else
            (.error "Task failed after 3 retries", some r1)
        else
          let upd := computeUpdate r1 d
          (.success upd.2, some upd.1)

/-- A minimal candidate for concrete instances: only the fields the
deduplication and sort read are populated. -/
def mkCand (pid : Option String) (rating : Option (Option Rat)) : Candidate where
  place_id := pid
  name := none
  rating := rating
  price_level := some none
  vicinity := none
  cuisines := []
  business_status := none
  reference_location := none
  recommendation_type := none
  matched_cuisines := none

/-- A concrete restaurant row with no cuisine tags. -/
def rPlain : Restaurant := ⟨7, "x", "N", "A", none, none, none, []⟩

/-- A concrete already-resolved (non-placeholder) restaurant row. -/
def rResolved : Restaurant := ⟨1, "ChIJabc", "N", "A", none, none, none, []⟩

/-- A concrete raw place with rating 4.5 and price level 2. -/
def rawGood : RawPlace :=
  ⟨some "p1", some "G", some (some (mkRat 9 2)), some (some 2), none, ["italian_restaurant"], none⟩

/-- A concrete raw place with rating 3 and price level 1. -/
def rawCheap : RawPlace :=
  ⟨some "p2", some "C", some (some 3), some (some 1), none, ["cafe"], none⟩

/-- A concrete restaurant row carrying one cuisine tag. -/
def rItalian : Restaurant := ⟨5, "y", "P", "A", none, none, none, ["Italian"]⟩

/-- A concrete placeholder ("stub") restaurant row. -/
def rStub : Restaurant := ⟨2, "stub_1", "N", "A", none, none, none, []⟩

/-- A concrete fetched place-details payload. -/
def pdSample : PlaceData :=
  ⟨some "p", some "N2", some "A2", some 1, some 2, some 4, ["Italian Restaurant"], "OPERATIONAL"⟩

/-! ## Lemmas about the Visit Ledger -/

theorem bumpCuisine_visits (u : Nat) (st : Ledger) (c : String) :
    (bumpCuisine u st c).visits = st.visits := by
  unfold bumpCuisine
  cases st.cuisineStats u c <;> rfl

theorem foldl_bumpCuisine_visits (u : Nat) (l : List String) (st : Ledger) :
    (l.foldl (fun s c => bumpCuisine u s c) st).visits = st.visits := by
  induction l generalizing st with
  | nil => rfl
  | cons c t ih => rw [List.foldl_cons, ih, bumpCuisine_visits]

theorem bumpCuisine_count_self (u : Nat) (st : Ledger) (c : String) :
    cuisineCount (bumpCuisine u st c) u c = cuisineCount st u c + 1 := by
  unfold bumpCuisine cuisineCount setStat
  cases h : st.cuisineStats u c <;> simp [h]

theorem bumpCuisine_count_other (u : Nat) (st : Ledger) (c c' : String) (h : c' ≠ c) :
    cuisineCount (bumpCuisine u st c) u c' = cuisineCount st u c' := by
  unfold bumpCuisine cuisineCount setStat
  cases hh : st.cuisineStats u c <;> simp [h]

theorem foldl_bump_not_mem (u : Nat) (l : List String) (st : Ledger) (c : String)
    (h : c ∉ l) :
    cuisineCount (l.foldl (fun s x => bumpCuisine u s x) st) u c = cuisineCount st u c := by
  induction l generalizing st with
  | nil => rfl
  | cons a t ih =>
    rw [List.foldl_cons]
    have hc : c ≠ a := fun e => h (e ▸ List.mem_cons_self a t)
    rw [ih _ (fun hm => h (List.mem_cons_of_mem a hm)), bumpCuisine_count_other u st a c hc]

theorem foldl_bump_mem (u : Nat) (l : List String) (st : Ledger) (c : String)
    (hnd : l.Nodup) (h : c ∈ l) :
    cuisineCount (l.foldl (fun s x => bumpCuisine u s x) st) u c = cuisineCount st u c + 1 := by
  induction l generalizing st with
  | nil => cases h
  | cons a t ih =>
    rw [List.foldl_cons]
    rcases List.mem_cons.mp h with rfl | hm
    · have hnt : c ∉ t := (List.nodup_cons.mp hnd).1
      rw [foldl_bump_not_mem u t _ c hnt, bumpCuisine_count_self]
    · have hca : c ≠ a := by rintro rfl; exact (List.nodup_cons.mp hnd).1 hm
      rw [ih _ ((List.nodup_cons.mp hnd).2) hm, bumpCuisine_count_other u st a c hca]

theorem update_visit_stats_visitCount (u : Nat) (r : Restaurant) (vd td : Nat) (st : Ledger) :
    visitCount (update_visit_stats u r vd td st) u r.id = visitCount st u r.id + 1 := by
  unfold update_visit_stats visitCount
  rw [foldl_bumpCuisine_visits]
  cases h : st.visits u r.id <;> simp [setVisit, h]

theorem update_visit_stats_cuisineCount (u : Nat) (r : Restaurant) (vd td : Nat)
    (st : Ledger) (c : String) (hnd : r.cuisines.Nodup) (hc : c ∈ r.cuisines) :
    cuisineCount (update_visit_stats u r vd td st) u c = cuisineCount st u c + 1 := by
  unfold update_visit_stats
  rw [foldl_bump_mem u r.cuisines _ c hnd hc]
  cases h : st.visits u r.id <;> simp [cuisineCount, h]

theorem applyVisitSequence_visitCount (u : Nat) (r : Restaurant)
    (dates : List (Nat × Nat)) (st : Ledger) :
    visitCount (applyVisitSequence u r dates st) u r.id =
      visitCount st u r.id + dates.length := by
  unfold applyVisitSequence
  induction dates generalizing st with
  | nil => rfl
  | cons d t ih =>
    rw [List.foldl_cons, ih, update_visit_stats_visitCount, List.length_cons]
    omega

theorem applyVisitSequence_cuisineCount (u : Nat) (r : Restaurant)
    (dates : List (Nat × Nat)) (st : Ledger) (c : String)
    (hnd : r.cuisines.Nodup) (hc : c ∈ r.cuisines) :
    cuisineCount (applyVisitSequence u r dates st) u c =
      cuisineCount st u c + dates.length := by
  unfold applyVisitSequence
  induction dates generalizing st with
  | nil => rfl
  | cons d t ih =>
    rw [List.foldl_cons, ih, update_visit_stats_cuisineCount u r d.1 d.2 st c hnd hc,
      List.length_cons]
    omega

/-- C1: for every sequence of N receipt creations for the same (user, restaurant)
whose restaurant carries cuisine tags, starting from a state with no
VisitRecord for the pair and no CuisineStat for its cuisines, after all N
update_visit_stats calls the VisitRecord count is N and each cuisine's
CuisineStat count is N: the record is created with count 1 when absent and
incremented by exactly 1 on each subsequent call. -/
theorem update_visit_stats_counts_sequence (u : Nat) (r : Restaurant)
    (dates : List (Nat × Nat)) (st : Ledger)
    (hv : visitCount st u r.id = 0)
    (hcs : ∀ c ∈ r.cuisines, cuisineCount st u c = 0)
    (hnd : r.cuisines.Nodup) :
    visitCount (applyVisitSequence u r dates st) u r.id = dates.length ∧
    ∀ c ∈ r.cuisines,
      cuisineCount (applyVisitSequence u r dates st) u c = dates.length := by
  constructor
  · rw [applyVisitSequence_visitCount, hv, Nat.zero_add]
  · intro c hc
    rw [applyVisitSequence_cuisineCount u r dates st c hnd hc, hcs c hc, Nat.zero_add]

/-- C1 witness: three receipt creations for user 1 at restaurant `rItalian`
starting from the empty ledger yield visit count 3 and cuisine count 3. -/
theorem update_visit_stats_counts_sequence_witness :
    visitCount emptyLedger 1 rItalian.id = 0 ∧
    (∀ c ∈ rItalian.cuisines, cuisineCount emptyLedger 1 c = 0) ∧
    rItalian.cuisines.Nodup ∧
    (visitCount (applyVisitSequence 1 rItalian [(1, 2), (3, 4), (5, 6)] emptyLedger)
        1 rItalian.id = 3 ∧
      ∀ c ∈ rItalian.cuisines,
        cuisineCount (applyVisitSequence 1 rItalian [(1, 2), (3, 4), (5, 6)] emptyLedger)
          1 c = 3) :=
  ⟨by decide, by decide, by decide,
    update_visit_stats_counts_sequence 1 rItalian [(1, 2), (3, 4), (5, 6)] emptyLedger
      (by decide) (by decide) (by decide)⟩

/-- C2 counterexample: the selection loop checks membership in
`food_related_types`, which itself contains the generic "restaurant" tag, so a
bare "restaurant" tag is NOT suppressed when a specific category is present:
the derived list for that input is two-element, not exactly the one label the
claim states. -/
theorem extract_cuisines_generic_not_suppressed :
    extract_cuisines_from_types ["restaurant", "italian_restaurant", "food"] =
      ["Restaurant", "Italian Restaurant"] ∧
    extract_cuisines_from_types ["restaurant", "italian_restaurant", "food"] ≠
      ["Italian Restaurant"] := by decide

/-- C2 amended: cuisine-tag derivation keeps every tag of the fixed
food-related vocabulary, including the generic "restaurant" tag (generic tags
are not suppressed when specific ones are present; only tags outside the
vocabulary, such as "food" and "establishment", are excluded, with a fallback
to a lone "Restaurant" label when nothing matched), and converts each kept tag
underscore-to-space title-cased: the two example inputs yield
["Restaurant", "Italian Restaurant"] and ["Restaurant"] respectively. -/
theorem extract_cuisines_amended :
    extract_cuisines_from_types ["restaurant", "italian_restaurant", "food"] =
      ["Restaurant", "Italian Restaurant"] ∧
    extract_cuisines_from_types ["restaurant", "food", "establishment"] =
      ["Restaurant"] ∧
    extract_cuisines_from_types ["store", "establishment"] = [] := by decide

/-- C4: the code never writes the visitDate argument to the VisitRecord. On
creation `last_visit` is the current date (auto_now), not the passed visit
date 10; on a subsequent call the save is restricted to the count field, so
`last_visit` stays at the creation-time date 20 and never becomes the passed
visit date 30. This contradicts the claim that every call sets the last-visit
date to the visitDate argument. -/
theorem update_visit_stats_ignores_visit_date :
    (update_visit_stats 1 rPlain 10 20 emptyLedger).visits 1 7 =
      some ⟨1, 20⟩ ∧
    (update_visit_stats 1 rPlain 30 40
        (update_visit_stats 1 rPlain 10 20 emptyLedger)).visits 1 7 =
      some ⟨2, 20⟩ ∧
    (20 : Nat) ≠ 10 ∧ (20 : Nat) ≠ 30 := by decide

/-! ## Lemmas about deduplication and the rating sort -/

theorem dedupLoop_filter (pid : String) (hpid : pid ≠ "") :
    ∀ (l : List Candidate) (seen : List String),
      (dedupLoop seen l).filter (fun c => decide (c.place_id = some pid)) =
        if pid ∈ seen then [] else
          (l.find? (fun c => decide (c.place_id = some pid))).toList := by
  intro l
  induction l with
  | nil =>
    intro seen
    by_cases h : pid ∈ seen <;> simp [dedupLoop, h]
  | cons c cs ih =>
    intro seen
    cases hc : c.place_id with
    | none =>
      simp only [dedupLoop, hc]
      rw [ih seen, List.find?_cons_of_neg _ (by simp [hc])]
    | some q =>
      by_cases hq : q ≠ "" ∧ q ∉ seen
      · simp only [dedupLoop, hc, if_pos hq]
        by_cases hqp : q = pid
        · subst hqp
          rw [List.filter_cons_of_pos (by simp [hc]), ih (q :: seen),
            List.find?_cons_of_pos _ (by simp [hc])]
          simp [if_neg hq.2]
        · rw [List.filter_cons_of_neg (by simp [hc, hqp]), ih (q :: seen),
            List.find?_cons_of_neg _ (by simp [hc, hqp])]
          have hpq : ¬ (pid = q) := fun h => hqp h.symm
          simp [hpq]
      · simp only [dedupLoop, hc, if_neg hq]
        rw [ih seen]
        by_cases hqp : q = pid
        · subst hqp
          have hmem : q ∈ seen := by
            rcases Decidable.not_and_iff_or_not.mp hq with h | h
            · exact absurd (Decidable.not_not.mp h) hpid
            · exact Decidable.not_not.mp h
          simp [hmem]
        · rw [List.find?_cons_of_neg _ (by simp [hc, hqp])]

theorem mem_dedupLoop_truthy :
    ∀ (l : List Candidate) (seen : List String) (c : Candidate),
      c ∈ dedupLoop seen l → ∃ pid, c.place_id = some pid ∧ pid ≠ "" := by
  intro l
  induction l with
  | nil => intro seen c h; cases h
  | cons a as ih =>
    intro seen c h
    cases ha : a.place_id with
    | none =>
      simp only [dedupLoop, ha] at h
      exact ih seen c h
    | some q =>
      simp only [dedupLoop, ha] at h
      by_cases hq : q ≠ "" ∧ q ∉ seen
      · rw [if_pos hq] at h
        rcases List.mem_cons.mp h with rfl | hm
        · exact ⟨q, ha, hq.1⟩
        · exact ih (q :: seen) c hm
      · rw [if_neg hq] at h
        exact ih seen c h

theorem exceptBind_ok {e a b : Type} (x : a) (f : a → Except e b) :
    (Except.ok x >>= f) = f x := rfl

theorem exceptBind_error {e a b : Type} (err : e) (f : a → Except e b) :
    ((Except.error err : Except e a) >>= f) = Except.error err := rfl

theorem mem_of_sortInsertDesc (x : Candidate) :
    ∀ (l out : List Candidate), sortInsertDesc x l = .ok out →
      ∀ y ∈ out, y = x ∨ y ∈ l := by
  intro l
  induction l with
  | nil =>
    intro out h y hy
    simp only [sortInsertDesc] at h
    cases h
    rcases List.mem_singleton.mp hy with rfl
    exact Or.inl rfl
  | cons z zs ih =>
    intro out h y hy
    simp only [sortInsertDesc] at h
    cases hlt : pyLt (ratingSortKey z) (ratingSortKey x) with
    | error e => rw [hlt] at h; cases h
    | ok b =>
      rw [hlt] at h
      cases b with
      | true =>
        simp only [exceptBind_ok, if_true] at h
        cases h
        rcases List.mem_cons.mp hy with rfl | hm
        · exact Or.inl rfl
        · exact Or.inr hm
      | false =>
        simp only [exceptBind_ok, if_false] at h
        cases hrec : sortInsertDesc x zs with
        | error e => rw [hrec] at h; cases h
        | ok rest =>
          rw [hrec] at h
          simp only [exceptBind_ok] at h
          cases h
          rcases List.mem_cons.mp hy with rfl | hm
          · exact Or.inr (List.mem_cons_self _ _)
          · rcases ih rest hrec y hm with h1 | h2
            · exact Or.inl h1
            · exact Or.inr (List.mem_cons_of_mem _ h2)

theorem mem_of_foldlM_sortInsert :
    ∀ (l acc out : List Candidate),
      List.foldlM (fun a x => sortInsertDesc x a) acc l = .ok out →
      ∀ y ∈ out, y ∈ acc ∨ y ∈ l := by
  intro l
  induction l with
  | nil =>
    intro acc out h y hy
    simp only [List.foldlM_nil] at h
    cases h
    exact Or.inl hy
  | cons x xs ih =>
    intro acc out h y hy
    rw [List.foldlM_cons] at h
    cases hins : sortInsertDesc x acc with
    | error e => rw [hins] at h; cases h
    | ok acc2 =>
      rw [hins] at h
      simp only [exceptBind_ok] at h
      rcases ih acc2 out h y hy with h1 | h2
      · rcases mem_of_sortInsertDesc x acc acc2 hins y h1 with rfl | hmem
        · exact Or.inr (List.mem_cons_self _ _)
        · exact Or.inl hmem
      · exact Or.inr (List.mem_cons_of_mem _ h2)

theorem mem_of_pySortByRatingDesc (l out : List Candidate)
    (h : pySortByRatingDesc l = .ok out) : ∀ y ∈ out, y ∈ l := by
  intro y hy
  rcases mem_of_foldlM_sortInsert l [] out h y hy with h1 | h2
  · cases h1
  · exact h2

theorem dedup_sort_limit_mem (limit : Nat) (l out : List Candidate)
    (h : dedup_sort_limit limit l = .ok out) :
    ∀ c ∈ out, c ∈ deduplicate_recommendations l := by
  intro c hc
  simp only [dedup_sort_limit, pure, Except.pure, exceptBind_ok] at h
  cases hs : pySortByRatingDesc (deduplicate_recommendations l) with
  | error e => rw [hs] at h; cases h
  | ok sorted =>
    rw [hs] at h
    simp only [exceptBind_ok] at h
    cases h
    exact mem_of_pySortByRatingDesc _ _ hs c (List.mem_of_mem_take hc)

theorem find?_append_left {α : Type} (p : α → Bool) :
    ∀ (l1 l2 : List α) (c : α), l1.find? p = some c → (l1 ++ l2).find? p = some c := by
  intro l1
  induction l1 with
  | nil => intro l2 c h; cases h
  | cons a as ih =>
    intro l2 c h
    cases hp : p a with
    | true =>
      rw [List.find?_cons_of_pos _ hp] at h
      rw [List.cons_append, List.find?_cons_of_pos _ hp]
      exact h
    | false =>
      rw [List.find?_cons_of_neg _ (by simp [hp])] at h
      rw [List.cons_append, List.find?_cons_of_neg _ (by simp [hp])]
      exact ih l2 c h

/-- C3 counterexample: in the data shape the pipeline actually produces, a
candidate with unknown rating carries the key with value None; sorting the
claim's example merged list with ratings 3.0, None, 4.8, 4.2 then raises
TypeError instead of returning the order the claim states. -/
theorem rating_sort_null_rating_raises :
    dedup_sort_limit 20
      [mkCand (some "a") (some (some 3)), mkCand (some "b") (some none),
       mkCand (some "c") (some (some (mkRat 24 5))),
       mkCand (some "d") (some (some (mkRat 21 5)))] =
      .error .typeError := by decide

/-- C3 amended: after deduplication the list is sorted by rating descending
where only a candidate whose rating key is absent sorts as rating 0 (last):
for ratings 3.0, absent, 4.8, 4.2 the returned order is 4.8, 4.2, 3.0, absent;
but a candidate whose rating is present with value None makes the sort
comparison raise TypeError, so for the claim's list with a None rating the
call raises instead of returning an ordering. -/
theorem rating_sort_amended :
    dedup_sort_limit 20
      [mkCand (some "a") (some (some 3)), mkCand (some "b") none,
       mkCand (some "c") (some (some (mkRat 24 5))),
       mkCand (some "d") (some (some (mkRat 21 5)))] =
      .ok [mkCand (some "c") (some (some (mkRat 24 5))),
           mkCand (some "d") (some (some (mkRat 21 5))),
           mkCand (some "a") (some (some 3)), mkCand (some "b") none] ∧
    dedup_sort_limit 20
      [mkCand (some "a") (some (some 3)), mkCand (some "b") (some none),
       mkCand (some "c") (some (some (mkRat 24 5))),
       mkCand (some "d") (some (some (mkRat 21 5)))] =
      .error .typeError := by decide

/-- C5: concatenating the per-location result lists in location-iteration
order and deduplicating by place identifier keeps the first occurrence: when
both lists contain a candidate with identifier `pid`, the deduplicated merged
list contains exactly one such entry, namely the first matching candidate of
the first-iterated location's list. -/
theorem dedup_first_occurrence_wins (l1 l2 : List Candidate) (pid : String)
    (hpid : pid ≠ "")
    (h1 : ∃ c ∈ l1, c.place_id = some pid)
    (h2 : ∃ c ∈ l2, c.place_id = some pid) :
    ∃ c, (deduplicate_recommendations (l1 ++ l2)).filter
        (fun x => decide (x.place_id = some pid)) = [c] ∧
      l1.find? (fun x => decide (x.place_id = some pid)) = some c := by
  rcases h1 with ⟨c1, hc1, hp1⟩
  have hsome : (l1.find? (fun x => decide (x.place_id = some pid))).isSome := by
    rw [List.find?_isSome]
    exact ⟨c1, hc1, by simp [hp1]⟩
  rcases Option.isSome_iff_exists.mp hsome with ⟨c, hfind⟩
  refine ⟨c, ?_, hfind⟩
  rw [deduplicate_recommendations, dedupLoop_filter pid hpid (l1 ++ l2) [],
    find?_append_left _ l1 l2 c hfind]
  simp

/-- C5 witness: two location fan-out lists both containing place "x" with
different ratings; the deduplicated merge keeps exactly the first list's entry. -/
theorem dedup_first_occurrence_wins_witness :
    ("x" : String) ≠ "" ∧
    (∃ c ∈ [mkCand (some "x") (some (some 4))], c.place_id = some "x") ∧
    (∃ c ∈ [mkCand (some "x") (some (some 2))], c.place_id = some "x") ∧
    (∃ c, (deduplicate_recommendations
        ([mkCand (some "x") (some (some 4))] ++ [mkCand (some "x") (some (some 2))])).filter
          (fun x => decide (x.place_id = some "x")) = [c] ∧
      [mkCand (some "x") (some (some 4))].find?
        (fun x => decide (x.place_id = some "x")) = some c) :=
  ⟨by decide, ⟨mkCand (some "x") (some (some 4)), by decide, by decide⟩,
   ⟨mkCand (some "x") (some (some 2)), by decide, by decide⟩,
   dedup_first_occurrence_wins [mkCand (some "x") (some (some 4))]
     [mkCand (some "x") (some (some 2))] "x" (by decide)
     ⟨mkCand (some "x") (some (some 4)), by decide, by decide⟩
     ⟨mkCand (some "x") (some (some 2)), by decide, by decide⟩⟩

/-- C9: deduplication drops every candidate whose place identifier is absent,
None or empty: whatever list the merged fan-out produced, when the post-dedup
sort returns a list, every member has a non-empty place identifier; and a
candidate without one is dropped even when it is the only candidate. -/
theorem dedup_drops_missing_place_id :
    (∀ (limit : Nat) (l out : List Candidate) (c : Candidate),
      dedup_sort_limit limit l = .ok out → c ∈ out →
        ∃ pid, c.place_id = some pid ∧ pid ≠ "") ∧
    (∀ (limit : Nat) (c : Candidate),
      c.place_id = none ∨ c.place_id = some "" →
        dedup_sort_limit limit [c] = .ok []) := by
  constructor
  · intro limit l out c h hc
    exact mem_dedupLoop_truthy l [] c (dedup_sort_limit_mem limit l out h c hc)
  · intro limit c h
    rcases h with h | h <;>
      simp [dedup_sort_limit, deduplicate_recommendations, dedupLoop, h,
        pySortByRatingDesc, pure, Except.pure, List.foldlM, exceptBind_ok]

/-- C9 witness: a kept candidate has a truthy identifier, and a candidate with
no place identifier is dropped even as the sole fan-out result. -/
theorem dedup_drops_missing_place_id_witness :
    (dedup_sort_limit 20 [mkCand (some "a") (some (some 3))] =
        .ok [mkCand (some "a") (some (some 3))] ∧
      mkCand (some "a") (some (some 3)) ∈ [mkCand (some "a") (some (some 3))] ∧
      (∃ pid, (mkCand (some "a") (some (some 3))).place_id = some pid ∧ pid ≠ "")) ∧
    ((mkCand none none).place_id = none ∨ (mkCand none none).place_id = some "") ∧
    dedup_sort_limit 20 [mkCand none none] = .ok [] :=
  ⟨⟨by decide, by decide,
      dedup_drops_missing_place_id.1 20 [mkCand (some "a") (some (some 3))]
        [mkCand (some "a") (some (some 3))] (mkCand (some "a") (some (some 3)))
        (by decide) (by decide)⟩,
   by decide,
   dedup_drops_missing_place_id.2 20 (mkCand none none) (by decide)⟩

/-- C7: the Places Lookup Gateway never raises past its boundary. In the
disabled state (no credential, `client = none`) each of the three operations
returns its empty/not-found result immediately, without any response from the
external service even existing; and a raised transport/API failure in the
response is converted to None (details, find-place) or the empty list (nearby
search). -/
theorem gateway_disabled_and_errors_absorbed :
    fetch_restaurant_details none = none ∧
    find_place_from_text none = none ∧
    (∀ (mr : Option Rat) (mp : Option Int) (ct : Option (List String)) (k : Nat),
      search_nearby_restaurants none mr mp ct k = []) ∧
    (∀ e, fetch_restaurant_details (some (.error e)) = none) ∧
    (∀ e, find_place_from_text (some (.error e)) = none) ∧
    (∀ (e : PyErr) (mr : Option Rat) (mp : Option Int) (ct : Option (List String))
      (k : Nat), search_nearby_restaurants (some (.error e)) mr mp ct k = []) :=
  ⟨rfl, rfl, fun _ _ _ _ => rfl, fun _ => rfl, fun _ => rfl, fun _ _ _ _ _ => rfl⟩

/-! ## Lemmas about the nearby-search filters -/

theorem searchLoop_sound (mr : Option Rat) (mp : Option Int)
    (ct : Option (List String)) :
    ∀ (ps : List RawPlace) (cs : List Candidate),
      searchLoop mr mp ct ps = .ok cs →
      ∀ c ∈ cs, ∃ p, p ∈ ps ∧ placeKept mr mp ct p = .ok true ∧ c = toCandidate p := by
  intro ps
  induction ps with
  | nil =>
    intro cs h c hc
    simp only [searchLoop] at h
    cases h
    cases hc
  | cons p ps ih =>
    intro cs h c hc
    simp only [searchLoop] at h
    cases hk : placeKept mr mp ct p with
    | error e => rw [hk] at h; cases h
    | ok keep =>
      rw [hk] at h
      cases hrest : searchLoop mr mp ct ps with
      | error e => rw [hrest] at h; simp only [exceptBind_ok, exceptBind_error] at h; cases h
      | ok rest =>
        rw [hrest] at h
        simp only [exceptBind_ok] at h
        cases keep with
        | true =>
          simp only [if_true] at h
          cases h
          rcases List.mem_cons.mp hc with rfl | hm
          · exact ⟨p, List.mem_cons_self _ _, hk, rfl⟩
          · rcases ih _ hrest c hm with ⟨p2, hp2, hkept, hcand⟩
            exact ⟨p2, List.mem_cons_of_mem _ hp2, hkept, hcand⟩
        | false =>
          rw [if_neg (by simp)] at h
          cases h
          rcases ih _ hrest c hc with ⟨p2, hp2, hkept, hcand⟩
          exact ⟨p2, List.mem_cons_of_mem _ hp2, hkept, hcand⟩

theorem placeKept_ok_true (mr : Option Rat) (mp : Option Int)
    (ct : Option (List String)) (p : RawPlace)
    (h : placeKept mr mp ct p = .ok true) :
    ratingCheck mr p = .ok false ∧ priceCheck mp p = .ok false := by
  simp only [placeKept] at h
  cases hrc : ratingCheck mr p with
  | error e => rw [hrc] at h; simp only [exceptBind_error] at h; cases h
  | ok rb =>
    rw [hrc] at h
    simp only [exceptBind_ok] at h
    cases rb with
    | true => simp only [if_true] at h; cases h
    | false =>
      rw [if_neg (by simp)] at h
      cases hpc : priceCheck mp p with
      | error e => rw [hpc] at h; simp only [exceptBind_error] at h; cases h
      | ok pb =>
        rw [hpc] at h
        simp only [exceptBind_ok] at h
        cases pb with
        | true => simp only [if_true] at h; cases h
        | false => exact ⟨rfl, rfl⟩

theorem ratingCheck_pass (q : Rat) (hq : 0 < q) (p : RawPlace)
    (h : ratingCheck (some q) p = .ok false) :
    ∃ v, p.rating = some (some v) ∧ q ≤ v := by
  have htr : truthyQ (some q) = true := decide_eq_true (ne_of_gt hq)
  cases hr : p.rating with
  | none =>
    exfalso
    simp only [ratingCheck, htr, if_true, hr, pyGetD, pyLt] at h
    have : decide (0 < q) = false := Except.ok.inj h
    rw [decide_eq_true hq] at this
    cases this
  | some ro =>
    cases ro with
    | none =>
      exfalso
      simp only [ratingCheck, htr, if_true, hr, pyGetD, pyLt] at h
      cases h
    | some v =>
      refine ⟨v, rfl, ?_⟩
      simp only [ratingCheck, htr, if_true, hr, pyGetD, pyLt] at h
      have hd : decide (v < q) = false := Except.ok.inj h
      exact le_of_not_lt (of_decide_eq_false hd)

theorem priceCheck_pass (cap : Int) (hcap : cap < 5) (p : RawPlace)
    (h : priceCheck (some cap) p = .ok false) :
    ∃ lv, p.price_level = some (some lv) ∧ lv ≤ cap := by
  cases hp : p.price_level with
  | none =>
    exfalso
    simp only [priceCheck, hp, pyGetD, pyLt] at h
    have : decide (cap < 5) = false := Except.ok.inj h
    rw [decide_eq_true hcap] at this
    cases this
  | some po =>
    cases po with
    | none =>
      exfalso
      simp only [priceCheck, hp, pyGetD, pyLt] at h
      cases h
    | some lv =>
      refine ⟨lv, rfl, ?_⟩
      simp only [priceCheck, hp, pyGetD, pyLt] at h
      have hd : decide (cap < lv) = false := Except.ok.inj h
      exact le_of_not_lt (of_decide_eq_false hd)

theorem search_nearby_sound (client : Option (Except PyErr (List RawPlace)))
    (mr : Option Rat) (mp : Option Int) (ct : Option (List String)) (k : Nat)
    (c : Candidate) (hc : c ∈ search_nearby_restaurants client mr mp ct k) :
    ∃ p, placeKept mr mp ct p = .ok true ∧ c = toCandidate p := by
  cases client with
  | none => cases hc
  | some resp =>
    cases resp with
    | error e => cases hc
    | ok places =>
      simp only [search_nearby_restaurants, exceptBind_ok] at hc
      cases hloop : searchLoop mr mp ct places with
      | error e => rw [hloop] at hc; cases hc
      | ok cs =>
        rw [hloop] at hc
        simp only [exceptBind_ok] at hc
        cases hsort : pySortByRatingDesc cs with
        | error e => rw [hsort] at hc; cases hc
        | ok sorted =>
          rw [hsort] at hc
          simp only [exceptBind_ok] at hc
          have hmem : c ∈ cs :=
            mem_of_pySortByRatingDesc cs sorted hsort c (List.mem_of_mem_take hc)
          rcases searchLoop_sound mr mp ct places cs hloop c hmem with ⟨p, _, hkept, hcand⟩
          exact ⟨p, hkept, hcand⟩

/-- C10: the nearby-search filters treat missing attributes as the excluding
extreme. With the highly-rated preset (minimum rating 4.0) every returned
candidate comes from a place whose rating key was present and at least 4
(an absent rating is read as 0 and excluded); with the budget preset
(maximum price tier 1) every returned candidate has a present price level of
at most 1 (an absent price level is read as 5 and excluded). -/
theorem nearby_filters_exclude_missing_attributes :
    (∀ (client : Option (Except PyErr (List RawPlace))) (uc : Option (List String))
      (k : Nat) (c : Candidate),
      c ∈ get_recommendations_near_location client "good" uc k →
        ∃ v, c.rating = some (some v) ∧ 4 ≤ v) ∧
    (∀ (client : Option (Except PyErr (List RawPlace))) (uc : Option (List String))
      (k : Nat) (c : Candidate),
      c ∈ get_recommendations_near_location client "cheap" uc k →
        ∃ lv, c.price_level = some (some lv) ∧ lv ≤ 1) := by
  constructor
  · intro client uc k c hc
    have hgd : get_recommendations_near_location client "good" uc k =
        search_nearby_restaurants client (some 4) none none k := rfl
    rw [hgd] at hc
    rcases search_nearby_sound client (some 4) none none k c hc with ⟨p, hkept, rfl⟩
    rcases ratingCheck_pass 4 (by norm_num) p
        (placeKept_ok_true (some 4) none none p hkept).1 with ⟨v, hv, hle⟩
    exact ⟨v, by simp [toCandidate, pyFlatten, hv], hle⟩
  · intro client uc k c hc
    have hch : get_recommendations_near_location client "cheap" uc k =
        search_nearby_restaurants client none (some 1) none k := rfl
    rw [hch] at hc
    rcases search_nearby_sound client none (some 1) none k c hc with ⟨p, hkept, rfl⟩
    rcases priceCheck_pass 1 (by norm_num) p
        (placeKept_ok_true none (some 1) none p hkept).2 with ⟨lv, hlv, hle⟩
    exact ⟨lv, by simp [toCandidate, pyFlatten, hlv], hle⟩

/-- C10 witness: a concrete rated place is returned by the highly-rated
search with rating 4.5 at least 4, and a concrete priced place is returned by
the budget search with price level 1 at most 1. -/
theorem nearby_filters_exclude_missing_attributes_witness :
    (toCandidate rawGood ∈
        get_recommendations_near_location (some (.ok [rawGood])) "good" none 20 ∧
      (∃ v, (toCandidate rawGood).rating = some (some v) ∧ 4 ≤ v)) ∧
    (toCandidate rawCheap ∈
        get_recommendations_near_location (some (.ok [rawCheap])) "cheap" none 20 ∧
      (∃ lv, (toCandidate rawCheap).price_level = some (some lv) ∧ lv ≤ 1)) :=
  ⟨⟨by decide,
      nearby_filters_exclude_missing_attributes.1 (some (.ok [rawGood])) none 20
        (toCandidate rawGood) (by decide)⟩,
   ⟨by decide,
      nearby_filters_exclude_missing_attributes.2 (some (.ok [rawCheap])) none 20
        (toCandidate rawCheap) (by decide)⟩⟩

/-! ## Lemmas about the Enrichment Job field deltas -/

theorem newName_idem (nm : String) (d : PlaceData) :
    (newName (newName nm d).1 d).2 = false := by
  cases hn : d.name with
  | none => simp [newName, hn]
  | some s =>
    simp only [newName, hn]
    split_ifs with h1 h2 <;> simp_all

theorem newAddress_idem (ad : String) (d : PlaceData) :
    (newAddress (newAddress ad d).1 d).2 = false := by
  cases hn : d.address with
  | none => simp [newAddress, hn]
  | some s =>
    simp only [newAddress, hn]
    split_ifs with h1 h2 <;> simp_all

theorem setEqNames_dedup (l : List String) : setEqNames l.dedup l = true := by
  simp [setEqNames, List.all_eq_true, List.contains, List.elem_iff, List.mem_dedup]

theorem newCuisines_idem (cs : List String) (d : PlaceData) :
    (newCuisines (newCuisines cs d).1 d).2 = false := by
  unfold newCuisines
  split_ifs with h1 h2 <;> simp_all [setEqNames_dedup]

theorem newRating_idem (rt : Option Rat) (d : PlaceData) :
    (newRating (newRating rt d).1 d).2 = false := by
  cases hn : d.rating with
  | none => simp [newRating, hn]
  | some v =>
    simp only [newRating, hn]
    split_ifs with h1 h2 <;> simp_all

theorem newLatitude_idem (la : Option Rat) (d : PlaceData) :
    (newLatitude (newLatitude la d).1 d).2 = false := by
  cases hn : d.latitude with
  | none => simp [newLatitude, hn]
  | some v =>
    simp only [newLatitude, hn]
    split_ifs with h1 h2 <;> simp_all

theorem newLongitude_idem (lo : Option Rat) (d : PlaceData) :
    (newLongitude (newLongitude lo d).1 d).2 = false := by
  cases hn : d.longitude with
  | none => simp [newLongitude, hn]
  | some v =>
    simp only [newLongitude, hn]
    split_ifs with h1 h2 <;> simp_all

theorem computeUpdate_idem (r : Restaurant) (d : PlaceData) :
    (computeUpdate (computeUpdate r d).1 d).2 = [] := by
  simp only [computeUpdate]
  simp [newName_idem, newAddress_idem, newCuisines_idem, newRating_idem,
    newLatitude_idem, newLongitude_idem]

theorem computeUpdate_place_id (r : Restaurant) (d : PlaceData) :
    (computeUpdate r d).1.place_id = r.place_id := rfl

/-- C6 counterexample: on a resolved restaurant whose details fetch returns
"not found", the job returns an error result immediately (at retry count 0),
instead of the retryable outcome the claim states: only an exception raised
inside the update block reaches the retry handler, and the not-found branch
returns without raising. -/
theorem fetch_not_found_not_retried :
    (update_restaurant_info (some rResolved) none none false 0).1 =
      .error "Failed to fetch data from Google Places API" := by decide

/-- C6 amended: a "not found" outcome of fetchPlaceDetails is reported as a
plain failure and is never retried by the job (the same error result is
returned at every retry count); a missing restaurant id and a failed stub
text-resolution are likewise non-retried failures; the retry policy — up to 3
retries with exponential backoff of 2 to the k times 60 seconds, i.e. 1, 2, 4
minutes — applies only to an unexpected exception raised during the
update/persist phase. -/
theorem enrichment_retry_policy_amended :
    (∀ (r : Restaurant) (fp : Option FoundCandidate) (pr : Bool) (k : Nat),
      pyStartsWith r.place_id "stub_" = false →
      (update_restaurant_info (some r) fp none pr k).1 =
        .error "Failed to fetch data from Google Places API") ∧
    (∀ (fp : Option FoundCandidate) (d : Option PlaceData) (pr : Bool) (k : Nat),
      (update_restaurant_info none fp d pr k).1 = .error "Restaurant not found") ∧
    (∀ (r : Restaurant) (d : Option PlaceData) (pr : Bool) (k : Nat),
      pyStartsWith r.place_id "stub_" = true →
      (update_restaurant_info (some r) none d pr k).1 =
        .error "Could not find real place_id for stub restaurant") ∧
    (∀ (r : Restaurant) (fp : Option FoundCandidate) (d : PlaceData) (k : Nat),
      pyStartsWith r.place_id "stub_" = false → k < 3 →
      (update_restaurant_info (some r) fp (some d) true k).1 = .retry (2 ^ k * 60)) ∧
    (∀ (r : Restaurant) (fp : Option FoundCandidate) (d : PlaceData),
      pyStartsWith r.place_id "stub_" = false →
      (update_restaurant_info (some r) fp (some d) true 3).1 =
        .error "Task failed after 3 retries") := by
  refine ⟨?_, ?_, ?_, ?_, ?_⟩
  · intro r fp pr k hstub
    simp [update_restaurant_info, hstub]
  · intro fp d pr k
    rfl
  · intro r d pr k hstub
    simp [update_restaurant_info, hstub]
  · intro r fp d k hstub hk
    simp [update_restaurant_info, hstub, hk]
  · intro r fp d hstub
    simp [update_restaurant_info, hstub]

/-- C6 witness: the amended retry policy evaluated at concrete inputs — a
resolved restaurant with a not-found fetch, a missing restaurant row, an
unresolvable stub, and an unexpected persist error at retry counts 0 and 3. -/
theorem enrichment_retry_policy_amended_witness :
    (pyStartsWith rResolved.place_id "stub_" = false ∧
      (update_restaurant_info (some rResolved) none none false 0).1 =
        .error "Failed to fetch data from Google Places API") ∧
    (update_restaurant_info none none none false 0).1 = .error "Restaurant not found" ∧
    (pyStartsWith rStub.place_id "stub_" = true ∧
      (update_restaurant_info (some rStub) none (some pdSample) false 0).1 =
        .error "Could not find real place_id for stub restaurant") ∧
    ((0 : Nat) < 3 ∧
      (update_restaurant_info (some rResolved) none (some pdSample) true 0).1 =
        .retry 60) ∧
    (update_restaurant_info (some rResolved) none (some pdSample) true 3).1 =
      .error "Task failed after 3 retries" :=
  ⟨⟨by decide,
      enrichment_retry_policy_amended.1 rResolved none false 0 (by decide)⟩,
   enrichment_retry_policy_amended.2.1 none none false 0,
   ⟨by decide,
      enrichment_retry_policy_amended.2.2.1 rStub (some pdSample) false 0 (by decide)⟩,
   ⟨by decide,
      enrichment_retry_policy_amended.2.2.2.1 rResolved none pdSample 0 (by decide) (by decide)⟩,
   enrichment_retry_policy_amended.2.2.2.2 rResolved none pdSample (by decide)⟩

/-- C8: the Enrichment Job is idempotent on a resolved restaurant: if a run on
a non-placeholder restaurant with fetched data `d` succeeds and persists state
`r1`, a second run on `r1` with the same (unchanged) fetched data reports
success with an empty set of changed field names. -/
theorem enrichment_second_run_no_changes (r : Restaurant) (d : PlaceData)
    (fp : Option FoundCandidate) (k1 k2 : Nat) (r1 : Restaurant) (f1 : List String)
    (hstub : pyStartsWith r.place_id "stub_" = false)
    (hrun1 : update_restaurant_info (some r) fp (some d) false k1 =
      (.success f1, some r1)) :
    (update_restaurant_info (some r1) fp (some d) false k2).1 = .success [] := by
  have hrun1' : update_restaurant_info (some r) fp (some d) false k1 =
      (.success (computeUpdate r d).2, some (computeUpdate r d).1) := by
    simp [update_restaurant_info, hstub]
  rw [hrun1'] at hrun1
  have hr1 : r1 = (computeUpdate r d).1 := by
    have := congrArg Prod.snd hrun1
    simpa using this.symm
  have hstub1 : pyStartsWith r1.place_id "stub_" = false := by
    rw [hr1, computeUpdate_place_id]
    exact hstub
  have : (update_restaurant_info (some r1) fp (some d) false k2).1 =
      .success (computeUpdate r1 d).2 := by
    simp [update_restaurant_info, hstub1]
  rw [this, hr1, computeUpdate_idem]

/-- C8 witness: a resolved restaurant enriched twice with the same fetched
payload reports an empty changed-field set on the second run. -/
theorem enrichment_second_run_no_changes_witness :
    pyStartsWith rResolved.place_id "stub_" = false ∧
    update_restaurant_info (some rResolved) none (some pdSample) false 0 =
      (.success ["name", "address", "cuisines", "rating", "latitude", "longitude"],
        some (computeUpdate rResolved pdSample).1) ∧
    (update_restaurant_info (some (computeUpdate rResolved pdSample).1) none
        (some pdSample) false 0).1 = .success [] :=
  ⟨by decide, by decide,
    enrichment_second_run_no_changes rResolved pdSample none 0 0
      (computeUpdate rResolved pdSample).1
      ["name", "address", "cuisines", "rating", "latitude", "longitude"]
      (by decide) (by decide)⟩
